import Mathlib

/-!
# Jovi_Help: inline help panel (`src/web/core_help.js`)

A shallow embedding of the documentation cache, the `load_help` routine, the
sidebar tab's `render` callback, the `jovi_helpRequested` listener and the
selection-change handler installed by `setup()`.

Conventions of the embedding:

* An `async` function that is awaited before the next call starts is a state
  transformer: it takes the module state it reads and returns the value its
  promise resolves to together with the new state and the effects it caused.
* The network is a parameter: `fetch(url, ...)` is answered by a function from
  the requested URL to the outcome of the retrieval.
* Strings are Lean strings; a value that is not necessarily a string is a
  `JSValue`.
-/

set_option autoImplicit false

namespace JoviHelp

/-! ## JavaScript values and the object holding the cache -/

/-- The JavaScript values the program handles. An object or function is
identified by a reference name. Numbers do not occur in this program. -/
inductive JSValue where
  | undefined
  | null
  | bool (b : Bool)
  | str (s : String)
  | obj (ref : String)
  deriving DecidableEq, Repr

/-- Truthiness of a value, as used by the `||` operator. -/
def JSValue.truthy : JSValue → Bool
  | .undefined => false
  | .null => false
  | .bool b => b
  | .str s => s != ""
  | .obj _ => true

/-- The own properties of the object `CACHE_DOCUMENTATION`, in insertion
order. The program only ever stores strings in it. -/
abbrev Cache := List (String × String)

/-- Line 6: `const CACHE_DOCUMENTATION = {};` has no own property. -/
def CACHE_DOCUMENTATION : Cache := []

/-- The property names of `Object.prototype`, the prototype of every object
literal, hence of `CACHE_DOCUMENTATION`. -/
def objectPrototypeKeys : List String :=
  ["constructor", "__defineGetter__", "__defineSetter__", "hasOwnProperty",
   "__lookupGetter__", "__lookupSetter__", "isPrototypeOf", "propertyIsEnumerable",
   "toString", "valueOf", "__proto__", "toLocaleString"]

/-- Whether `name` is an own property of the cache object. -/
def hasOwn (cache : Cache) (name : String) : Bool :=
  (cache.lookup name).isSome

/-- The operator `name in CACHE_DOCUMENTATION` (line 18): true for an own
property and for a property found on the prototype chain. -/
def jsIn (name : String) (cache : Cache) : Bool :=
  hasOwn cache name || objectPrototypeKeys.contains name

/-- The property read `CACHE_DOCUMENTATION[name]` (lines 19 and 46): the own
property if there is one, otherwise what `Object.prototype` provides (the
accessor `__proto__` yields the prototype itself), otherwise `undefined`. -/
def jsGet (cache : Cache) (name : String) : JSValue :=
  match cache.lookup name with
  | some content => .str content
  | none =>
    if name == "__proto__" then .obj "Object.prototype"
    else if objectPrototypeKeys.contains name then .obj ("Object.prototype." ++ name)
    else .undefined

/-- Overwrite the own property `name`, which exists, keeping its position. -/
def replaceOwn (name data : String) : Cache → Cache
  | [] => []
  | (k, v) :: rest =>
    if k == name then (k, data) :: rest else (k, v) :: replaceOwn name data rest

/-- The assignment `CACHE_DOCUMENTATION[name] = data` (line 45) of a string.
An existing own property is overwritten. Otherwise the prototype chain is
consulted: the setter of the accessor `__proto__` ignores a value that is not
an object, and every other property of `Object.prototype` is a writable data
property, so a new own property is created as for an unknown name. -/
def jsSet (cache : Cache) (name data : String) : Cache :=
  if hasOwn cache name then replaceOwn name data cache
  else if name == "__proto__" then cache
  else cache ++ [(name, data)]

/-! ## The network -/

/-- The part of a `Response` the program reads. `text` is the outcome of the
promise `response.text()`: the body, or the reason it was rejected with. -/
structure Response where
  ok : Bool
  statusText : String
  url : String
  text : Except String String

/-- Outcome of the promise returned by `fetch`: fulfilled with a response
(whatever its status), or rejected with an error, given here by the text
that `${error}` produces. -/
inductive FetchOutcome where
  | resolved (response : Response)
  | rejected (error : String)

/-- The network: the outcome of `fetch(url, { cache: "no-store" })`. -/
abbrev Network := String → FetchOutcome

/-! ## `load_help` -/

/-- Line 7. -/
def JOV_HELP_URL : String := "./api/jov_help/doc"

/-- Line 8. -/
def JOV_HOME : String := "./api/jov_help"

/-- The method `data.startsWith(pre)`. -/
def startsWith (data pre : String) : Bool :=
  pre.data.isPrefixOf data.data

/-- Line 31: the fragment for a response that is not `ok`. -/
def httpErrorFragment (name : String) (response : Response) : String :=
  "Failed to load documentation: " ++ name ++ "<br><br>" ++ response.statusText
    ++ "<br><br>" ++ response.url

/-- Lines 38-43: the template literal built around a body starting with
"unknown". -/
def unknownFragment (data : String) : String :=
  "\n                    <div align=\"center\">\n                        <h3>" ++ data
    ++ "</h3>\n                        <h4>SELECT A NODE TO SEE HELP</h4>\n                    </div>\n                "

/-- Line 50: the fragment produced by the `.catch` callback. -/
def catchFragment (name error : String) : String :=
  "Failed to load documentation: " ++ name ++ "\n\n" ++ error

/-- What a call of `load_help` leaves behind: the value its promise resolves
to, the cache afterwards, the URLs requested from the network (in order) and
the number of `console.error` calls. -/
structure LoadResult where
  value : JSValue
  cache : Cache
  requests : List String
  consoleErrors : Nat
  deriving DecidableEq, Repr

/-- Lines 28-34, the first `.then` callback: the promise it returns is
fulfilled with a string or rejected. The second component counts the
`console.error` call of line 30. -/
def onResponse (name : String) (response : Response) : Except String String × Nat :=
  if !response.ok then (.ok (httpErrorFragment name response), 1)
  else (response.text, 0)

/-- Lines 35-47, the second `.then` callback: returns the value it yields
and the cache after the assignment of line 45. -/
def onData (cache : Cache) (name : String) (data : String) : JSValue × Cache :=
  let data := if startsWith data "unknown" then unknownFragment data else data
  let cache := jsSet cache name data
  (jsGet cache name, cache)

/-- Lines 15-53: `load_help(name, absolute)`. -/
def load_help (net : Network) (cache : Cache) (name : String) (absolute : Bool) : LoadResult :=
  if !absolute && jsIn name cache then
    { value := jsGet cache name, cache := cache, requests := [], consoleErrors := 0 }
  else
    let url := if !absolute then JOV_HELP_URL ++ "/" ++ name else JOV_HOME
    match net url with
    | .rejected error =>
      { value := .str (catchFragment name error), cache := cache, requests := [url],
        consoleErrors := 1 }
    | .resolved response =>
      match onResponse name response with
      | (.error error, logged) =>
        { value := .str (catchFragment name error), cache := cache, requests := [url],
          consoleErrors := logged + 1 }
      | (.ok data, logged) =>
        let (value, cache) := onData cache name data
        { value := value, cache := cache, requests := [url], consoleErrors := logged }

/-! ## The panel -/

/-- A DOM element as far as the program uses it: its identity and the value
last assigned to `innerHTML`. -/
structure Element where
  id : Nat
  innerHTML : JSValue
  deriving DecidableEq, Repr

/-- The module state: `PANEL` (line 5, `none` while it is `undefined`) and
`CACHE_DOCUMENTATION` (line 6). -/
structure State where
  PANEL : Option Element
  cache : Cache
  deriving DecidableEq, Repr

/-- The state after the module is evaluated. -/
def State.initial : State := { PANEL := none, cache := CACHE_DOCUMENTATION }

/-- A run of a callback: the state it leaves and the URLs it requested. -/
structure Run where
  state : State
  requests : List String
  deriving DecidableEq, Repr

/-- Lines 61-64: the `render` callback of the sidebar tab, awaited to its
end. -/
def render (net : Network) (st : State) (el : Element) : Run :=
  let r := load_help net st.cache "home" true
  { state := { PANEL := some { el with innerHTML := r.value }, cache := r.cache },
    requests := r.requests }

/-- The `detail` of a `jovi_helpRequested` event (lines 96-99). -/
structure Detail where
  «class» : JSValue
  name : String
  deriving DecidableEq, Repr

/-- Lines 67-71: the listener of `jovi_helpRequested`, awaited to its end. -/
def onHelpRequested (net : Network) (st : State) (detail : Detail) : Run :=
  match st.PANEL with
  | none => { state := st, requests := [] }
  | some panel =>
    let r := load_help net st.cache detail.name false
    { state := { PANEL := some { panel with innerHTML := r.value }, cache := r.cache },
      requests := r.requests }

/-! ## The selection-change handler installed by `setup()` -/

/-- A selected node as far as the handler reads it: `getNickname` is `none`
when the node has no such method and otherwise the value the method returns;
`type` is the node's type identifier. -/
structure Node where
  getNickname : Option JSValue
  type : String
  deriving DecidableEq, Repr

/-- The argument of `onSelectionChange`: `none` when it is absent (`undefined`
or `null`), otherwise the entries of the mapping from key to selected node in
the order `Object.keys` lists them. -/
abbrev Selection := Option (List (String × Node))

/-- A selection-change handler of the host: from the receiver and the list of
arguments of a call to the value the call returns. -/
abbrev Handler := JSValue → List Selection → JSValue

/-- What a run of the replacement handler does, in order. -/
inductive Event where
  | call (receiver : JSValue) (args : List Selection)
  | dispatch (type : String) (detail : Detail)
  deriving DecidableEq, Repr

/-- Lines 93-102: the events dispatched for the selection. -/
def dispatched (selectedNodes : Selection) : List Event :=
  match selectedNodes with
  | none => []
  | some entries =>
    match entries.map Prod.fst with
    | [] => []
    | firstNodeKey :: _ =>
      match entries.lookup firstNodeKey with
      | none => []
      | some firstNode =>
        let nickname := match firstNode.getNickname with
          | none => JSValue.undefined
          | some v => v
        let data : Detail :=
          { «class» := if nickname.truthy then nickname else .str "unknown",
            name := firstNode.type }
        [Event.dispatch "jovi_helpRequested" data]

/-- What a call of the replacement handler leaves behind: the events in the
order they happen, and the value returned. -/
structure HandlerRun where
  trace : List Event
  value : JSValue
  deriving DecidableEq, Repr

/-- Lines 89-105: `setup()` captures `app.canvas.onSelectionChange` (`none`
when the host installed none) and returns the function it installs in its
place, here applied to the receiver `this` and the argument `selectedNodes`. -/
def setup (onSelectionChange : Option Handler) (this : JSValue) (selectedNodes : Selection) :
    HandlerRun :=
  let (called, me) := match onSelectionChange with
    | none => (([] : List Event), JSValue.undefined)
    | some h => ([Event.call this []], h this [])
  { trace := called ++ dispatched selectedNodes, value := me }

/-- What the host's call `handler.call(receiver, selectedNodes)` is: the call
a handler receives when nothing stands between it and the host. -/
def hostCall (receiver : JSValue) (selectedNodes : Selection) : Event :=
  Event.call receiver [selectedNodes]

/-! ## Containment of text -/

/-- The fragment `s` contains the text `sub`. -/
def Contains (s sub : String) : Prop := sub.data <:+: s.data

instance (s sub : String) : Decidable (Contains s sub) := by
  unfold Contains; infer_instance

/-- The retrieval completes: a response arrives and, when it is `ok`, its body
can be read. The alternative is a rejection handled by `.catch`. -/
def FetchOutcome.completes : FetchOutcome → Bool
  | .rejected _ => false
  | .resolved response =>
    if !response.ok then true
    else match response.text with
      | .ok _ => true
      | .error _ => false

/-- The events of a run that are dispatches, in order. -/
def signals (r : HandlerRun) : List Event :=
  r.trace.filter fun e =>
    match e with
    | .dispatch _ _ => true
    | .call _ _ => false

/-- The invocations of the captured handler in a run, in order. -/
def calls (r : HandlerRun) : List Event :=
  r.trace.filter fun e =>
    match e with
    | .dispatch _ _ => false
    | .call _ _ => true

/-! ## Auxiliary definitions for the statements -/

/-- The URL a call that reaches the network requests. -/
def requestUrl (name : String) (absolute : Bool) : String :=
  if !absolute then JOV_HELP_URL ++ "/" ++ name else JOV_HOME

/-- The string the second `.then` callback stores for `data`. -/
def stored (data : String) : String :=
  if startsWith data "unknown" then unknownFragment data else data

/-! ## Example inputs -/

/-- A network that answers every request with a success response of the given
body. -/
def netBody (body : String) : Network :=
  fun url => .resolved { ok := true, statusText := "OK", url := url, text := .ok body }

/-- A network on which every request is rejected with the given error. -/
def netDown (error : String) : Network :=
  fun _ => .rejected error

/-- A network that answers every request with 404 Not Found at the URL
"http://host/api/jov_help/doc/FooNode". -/
def netNotFound : Network :=
  fun _ => .resolved
    { ok := false, statusText := "Not Found", url := "http://host/api/jov_help/doc/FooNode",
      text := .ok "" }

/-- A handler of the host that reports whether it was given a selection with
an entry. -/
def reportSelection : Handler :=
  fun _ args =>
    match args with
    | [some (_ :: _)] => .str "nodes selected"
    | _ => .str "nothing selected"

/-! ## Lemmas on the cache object -/

theorem lookup_replaceOwn_self (name data : String) (cache : Cache)
    (h : hasOwn cache name = true) :
    (replaceOwn name data cache).lookup name = some data := by
  induction cache with
  | nil => simp [hasOwn] at h
  | cons p rest ih =>
    obtain ⟨k, v⟩ := p
    by_cases hk : k = name
    · subst hk
      simp [replaceOwn, List.lookup]
    · have hne : (name == k) = false := by
        simpa using fun h' => hk h'.symm
      have hrest : hasOwn rest name = true := by
        simpa [hasOwn, List.lookup, hne] using h
      simp [replaceOwn, hk, List.lookup, hne, ih hrest]

theorem lookup_replaceOwn_other (name data m : String) (cache : Cache) (hm : m ≠ name) :
    (replaceOwn name data cache).lookup m = cache.lookup m := by
  induction cache with
  | nil => simp [replaceOwn]
  | cons p rest ih =>
    obtain ⟨k, v⟩ := p
    by_cases hk : k = name
    · subst hk
      have hne : (m == k) = false := by simpa using hm
      simp [replaceOwn, List.lookup, hne]
    · by_cases hmk : m = k
      · subst hmk
        simp [replaceOwn, hk, List.lookup]
      · have hne : (m == k) = false := by simpa using hmk
        simp [replaceOwn, hk, List.lookup, hne, ih]

theorem lookup_append_single (cache : Cache) (name data m : String) :
    (cache ++ [(name, data)]).lookup m =
      match cache.lookup m with
      | some v => some v
      | none => if m = name then some data else none := by
  induction cache with
  | nil =>
    by_cases h : m = name
    · subst h; simp [List.lookup]
    · have hne : (m == name) = false := by simpa using h
      simp [List.lookup, hne, h]
  | cons p rest ih =>
    obtain ⟨k, v⟩ := p
    by_cases hmk : m = k
    · subst hmk; simp [List.lookup]
    · have hne : (m == k) = false := by simpa using hmk
      simp [List.lookup, hne, ih]

theorem lookup_jsSet_self (cache : Cache) (name data : String)
    (h : hasOwn cache name = true ∨ name ≠ "__proto__") :
    (jsSet cache name data).lookup name = some data := by
  unfold jsSet
  by_cases ho : hasOwn cache name = true
  · simp [ho, lookup_replaceOwn_self name data cache ho]
  · have hp : name ≠ "__proto__" := by
      rcases h with h | h
      · exact absurd h ho
      · exact h
    have hnone : cache.lookup name = none := by
      cases hl : cache.lookup name with
      | none => rfl
      | some v => exact absurd (by rw [hasOwn, hl]; rfl) ho
    simp [ho, hp, lookup_append_single, hnone]

theorem lookup_jsSet_other (cache : Cache) (name data m : String) (hm : m ≠ name) :
    (jsSet cache name data).lookup m = cache.lookup m := by
  unfold jsSet
  split
  · exact lookup_replaceOwn_other name data m cache hm
  · split
    · rfl
    · rw [lookup_append_single]
      cases cache.lookup m <;> simp [hm]

theorem jsGet_of_lookup (cache : Cache) (name content : String)
    (h : cache.lookup name = some content) : jsGet cache name = .str content := by
  simp [jsGet, h]

theorem jsIn_of_lookup (cache : Cache) (name content : String)
    (h : cache.lookup name = some content) : jsIn name cache = true := by
  simp [jsIn, hasOwn, h]

theorem not_proto_of_not_jsIn (cache : Cache) (name : String) (h : jsIn name cache = false) :
    name ≠ "__proto__" := by
  intro hp
  subst hp
  simp [jsIn, objectPrototypeKeys] at h

theorem jsSet_of_not_jsIn (cache : Cache) (name data : String) (h : jsIn name cache = false) :
    jsSet cache name data = cache ++ [(name, data)] := by
  have hp := not_proto_of_not_jsIn cache name h
  have ho : hasOwn cache name = false := by
    simp [jsIn] at h
    exact h.1
  simp [jsSet, ho, hp]

/-! ## Lemmas on the fragments -/

theorem contains_mid (a sub b : String) : Contains (a ++ sub ++ b) sub := by
  unfold Contains
  exact ⟨a.data, b.data, by simp [String.data_append]⟩

theorem contains_end (a sub : String) : Contains (a ++ sub) sub := by
  unfold Contains
  exact ⟨a.data, [], by simp [String.data_append]⟩

theorem startsWith_httpErrorFragment (name : String) (response : Response) :
    startsWith (httpErrorFragment name response) "unknown" = false := by
  simp [startsWith, httpErrorFragment, String.data_append, List.isPrefixOf]

/-! ## Lemmas on `load_help` -/

theorem load_help_hit (net : Network) (cache : Cache) (name : String)
    (h : jsIn name cache = true) :
    load_help net cache name false =
      { value := jsGet cache name, cache := cache, requests := [], consoleErrors := 0 } := by
  simp [load_help, h]

theorem load_help_rejected (net : Network) (cache : Cache) (name error : String)
    (absolute : Bool) (hmiss : absolute = true ∨ jsIn name cache = false)
    (hnet : net (requestUrl name absolute) = .rejected error) :
    load_help net cache name absolute =
      { value := .str (catchFragment name error), cache := cache,
        requests := [requestUrl name absolute], consoleErrors := 1 } := by
  have hc : (!absolute && jsIn name cache) = false := by
    rcases hmiss with h | h <;> simp [h]
  simp only [requestUrl, Bool.not_eq_true'] at hnet
  simp only [load_help, hc, requestUrl]
  simp [hnet]

theorem load_help_text_rejected (net : Network) (cache : Cache) (name error : String)
    (absolute : Bool) (response : Response)
    (hmiss : absolute = true ∨ jsIn name cache = false)
    (hnet : net (requestUrl name absolute) = .resolved response)
    (hok : response.ok = true) (htext : response.text = .error error) :
    load_help net cache name absolute =
      { value := .str (catchFragment name error), cache := cache,
        requests := [requestUrl name absolute], consoleErrors := 1 } := by
  have hc : (!absolute && jsIn name cache) = false := by
    rcases hmiss with h | h <;> simp [h]
  simp only [requestUrl, Bool.not_eq_true'] at hnet
  simp only [load_help, hc, requestUrl]
  simp [hnet, onResponse, hok, htext]

theorem load_help_data (net : Network) (cache : Cache) (name data : String)
    (absolute : Bool) (response : Response) (logged : Nat)
    (hmiss : absolute = true ∨ jsIn name cache = false)
    (hnet : net (requestUrl name absolute) = .resolved response)
    (hdata : onResponse name response = (.ok data, logged)) :
    load_help net cache name absolute =
      { value := (onData cache name data).1, cache := (onData cache name data).2,
        requests := [requestUrl name absolute], consoleErrors := logged } := by
  have hc : (!absolute && jsIn name cache) = false := by
    rcases hmiss with h | h <;> simp [h]
  simp only [requestUrl, Bool.not_eq_true'] at hnet
  simp only [load_help, hc, requestUrl]
  simp [hnet, hdata]

/-- A retrieval that completes hands a string to the second `.then`
callback. -/
theorem onResponse_of_completes (net : Network) (url name : String)
    (h : (net url).completes = true) :
    ∃ response data logged, net url = .resolved response ∧
      onResponse name response = (.ok data, logged) := by
  cases hn : net url with
  | rejected e => simp [hn, FetchOutcome.completes] at h
  | resolved response =>
    refine ⟨response, ?_⟩
    by_cases hok : response.ok = true
    · cases ht : response.text with
      | ok body => exact ⟨body, 0, rfl, by simp [onResponse, hok, ht]⟩
      | error e => simp [hn, FetchOutcome.completes, hok, ht] at h
    · exact ⟨httpErrorFragment name response, 1, rfl, by simp [onResponse, hok]⟩

/-- A retrieval that does not complete is handled by `.catch`, which leaves
the cache alone. -/
theorem load_help_not_completes (net : Network) (cache : Cache) (name : String)
    (absolute : Bool) (hmiss : absolute = true ∨ jsIn name cache = false)
    (h : (net (requestUrl name absolute)).completes = false) :
    ∃ error, load_help net cache name absolute =
      { value := .str (catchFragment name error), cache := cache,
        requests := [requestUrl name absolute], consoleErrors := 1 } := by
  cases hn : net (requestUrl name absolute) with
  | rejected e => exact ⟨e, load_help_rejected net cache name e absolute hmiss hn⟩
  | resolved response =>
    by_cases hok : response.ok = true
    · cases ht : response.text with
      | ok body => simp [hn, FetchOutcome.completes, hok, ht] at h
      | error e =>
        exact ⟨e, load_help_text_rejected net cache name e absolute response hmiss hn hok ht⟩
    · simp [hn, FetchOutcome.completes, hok] at h

theorem onData_eq (cache : Cache) (name data : String)
    (h : hasOwn cache name = true ∨ name ≠ "__proto__") :
    onData cache name data = (.str (stored data), jsSet cache name (stored data)) := by
  have := lookup_jsSet_self cache name (stored data) h
  simp only [onData, stored] at this ⊢
  rw [jsGet_of_lookup _ _ _ this]

theorem load_help_completes (net : Network) (cache : Cache) (name : String)
    (absolute : Bool) (hmiss : absolute = true ∨ jsIn name cache = false)
    (h : (net (requestUrl name absolute)).completes = true) :
    ∃ data logged, load_help net cache name absolute =
      { value := (onData cache name data).1, cache := (onData cache name data).2,
        requests := [requestUrl name absolute], consoleErrors := logged } := by
  obtain ⟨response, data, logged, hnet, hdata⟩ :=
    onResponse_of_completes net (requestUrl name absolute) name h
  exact ⟨data, logged, load_help_data net cache name data absolute response logged hmiss hnet hdata⟩

theorem load_help_miss_requests (net : Network) (cache : Cache) (name : String)
    (absolute : Bool) (hmiss : absolute = true ∨ jsIn name cache = false) :
    (load_help net cache name absolute).requests = [requestUrl name absolute] := by
  cases hc : (net (requestUrl name absolute)).completes with
  | true =>
    obtain ⟨data, logged, h⟩ := load_help_completes net cache name absolute hmiss hc
    rw [h]
  | false =>
    obtain ⟨error, h⟩ := load_help_not_completes net cache name absolute hmiss hc
    rw [h]

theorem unknownFragment_ne (data : String) : unknownFragment data ≠ data := by
  intro h
  have hlen : ∀ s : String, s.length = s.data.length := fun _ => rfl
  have := congrArg String.length h
  simp only [unknownFragment, hlen, String.data_append, List.length_append] at this
  simp [String.data] at this
  omega

/-! ## The claims on `load_help` -/

/-- C1: when `n` is cached with content `c`, `load_help(n, false)` returns
exactly `c`, requests nothing from the network and leaves the cache as it
is; and for every `n`, when the retrieval of a first non-absolute call would
not be rejected, that call and a second one for `n` request at most one URL
between them, the second requests none and returns what the first returned. -/
theorem load_help_serves_from_cache (net₁ net₂ : Network) (cache : Cache) (n : String) :
    (∀ c, cache.lookup n = some c →
      load_help net₁ cache n false =
        { value := .str c, cache := cache, requests := [], consoleErrors := 0 }) ∧
    ((net₁ (JOV_HELP_URL ++ "/" ++ n)).completes = true →
      (load_help net₁ cache n false).requests.length +
          (load_help net₂ (load_help net₁ cache n false).cache n false).requests.length ≤ 1 ∧
        (load_help net₂ (load_help net₁ cache n false).cache n false).requests = [] ∧
        (load_help net₂ (load_help net₁ cache n false).cache n false).value =
          (load_help net₁ cache n false).value ∧
        (load_help net₂ (load_help net₁ cache n false).cache n false).cache =
          (load_help net₁ cache n false).cache) := by
  constructor
  · intro c hc
    rw [load_help_hit net₁ cache n (jsIn_of_lookup cache n c hc), jsGet_of_lookup cache n c hc]
  · intro hcompl
    cases hin : jsIn n cache with
    | true =>
      rw [load_help_hit net₁ cache n hin]
      simp only
      rw [load_help_hit net₂ cache n hin]
      simp
    | false =>
      obtain ⟨data, logged, h⟩ :=
        load_help_completes net₁ cache n false (Or.inr hin) (by simpa [requestUrl] using hcompl)
      have hp := not_proto_of_not_jsIn cache n hin
      rw [h, onData_eq cache n data (Or.inr hp)]
      simp only
      have hl := lookup_jsSet_self cache n (stored data) (Or.inr hp)
      rw [load_help_hit net₂ _ n (jsIn_of_lookup _ n _ hl), jsGet_of_lookup _ n _ hl]
      simp

/-- Witness of C1: a cached "FooNode" is served without a request, and on an
empty cache two calls for "FooNode" make one request. -/
theorem load_help_serves_from_cache_witness :
    load_help (netBody "<p>new</p>") [("FooNode", "<p>Foo</p>")] "FooNode" false =
        { value := .str "<p>Foo</p>", cache := [("FooNode", "<p>Foo</p>")], requests := [],
          consoleErrors := 0 } ∧
      (load_help (netDown "offline")
          (load_help (netBody "<p>Foo</p>") [] "FooNode" false).cache "FooNode" false).value =
        (load_help (netBody "<p>Foo</p>") [] "FooNode" false).value :=
  ⟨(load_help_serves_from_cache (netBody "<p>new</p>") (netDown "offline")
      [("FooNode", "<p>Foo</p>")] "FooNode").1 "<p>Foo</p>" (by decide),
   ((load_help_serves_from_cache (netBody "<p>Foo</p>") (netDown "offline")
      [] "FooNode").2 (by decide)).2.2.1⟩

/-- C2, counterexample: on the initial cache, `load_help("home", true)` with a
successful retrieval creates the entry "home", also when it is the call made
by `render`; and on a cache that has "home" it overwrites the entry. -/
theorem load_help_absolute_populates_cache :
    (load_help (netBody "<p>home</p>") CACHE_DOCUMENTATION "home" true).cache ≠
        CACHE_DOCUMENTATION ∧
      (load_help (netBody "<p>home</p>") CACHE_DOCUMENTATION "home" true).cache =
        [("home", "<p>home</p>")] ∧
      (render (netBody "<p>home</p>") State.initial { id := 1, innerHTML := .undefined }).state.cache =
        [("home", "<p>home</p>")] ∧
      (load_help (netBody "<p>home</p>") [("home", "<p>doc of the node home</p>")] "home" true).cache =
        [("home", "<p>home</p>")] := by
  decide

/-- C2, amended: `load_help(n, true)` makes exactly one request, to the home
URL, whatever the cache holds. When the retrieval is rejected the cache is
left unchanged. When it completes, every entry other than `n` is unchanged
and, for `n` other than "__proto__", the string the call resolves to is stored
under `n`; in particular under "home" for the call made at mount time. -/
theorem load_help_absolute_cache (net : Network) (cache : Cache) (n : String) :
    (load_help net cache n true).requests = [JOV_HOME] ∧
    ((net JOV_HOME).completes = false → (load_help net cache n true).cache = cache) ∧
    ((net JOV_HOME).completes = true →
      (∀ m, m ≠ n → (load_help net cache n true).cache.lookup m = cache.lookup m) ∧
      (n ≠ "__proto__" → ∃ content,
        (load_help net cache n true).value = .str content ∧
        (load_help net cache n true).cache.lookup n = some content)) ∧
    ((net JOV_HOME).completes = true → ∃ content,
      (load_help net cache "home" true).value = .str content ∧
      (load_help net cache "home" true).cache.lookup "home" = some content) := by
  have key : ∀ name : String, (net JOV_HOME).completes = true → name ≠ "__proto__" →
      ∃ content, (load_help net cache name true).value = .str content ∧
        (load_help net cache name true).cache.lookup name = some content := by
    intro name hc hp
    obtain ⟨data, logged, h⟩ := load_help_completes net cache name true (Or.inl rfl) hc
    rw [h, onData_eq cache name data (Or.inr hp)]
    exact ⟨stored data, rfl, lookup_jsSet_self cache name (stored data) (Or.inr hp)⟩
  refine ⟨load_help_miss_requests net cache n true (Or.inl rfl), ?_, ?_, ?_⟩
  · intro hc
    obtain ⟨error, h⟩ := load_help_not_completes net cache n true (Or.inl rfl) hc
    rw [h]
  · intro hc
    refine ⟨?_, key n hc⟩
    intro m hm
    obtain ⟨data, logged, h⟩ := load_help_completes net cache n true (Or.inl rfl) hc
    rw [h]
    simp only [onData]
    exact lookup_jsSet_other cache n _ m hm
  · intro hc
    exact key "home" hc (by decide)

/-- Witness of the amended C2: a rejected mount-time retrieval leaves a cache
alone, a completed one stores the home page under "home" and keeps the entry
of "FooNode". -/
theorem load_help_absolute_cache_witness :
    (load_help (netDown "offline") [("FooNode", "<p>Foo</p>")] "home" true).cache =
        [("FooNode", "<p>Foo</p>")] ∧
      (load_help (netBody "<p>home</p>") [("FooNode", "<p>Foo</p>")] "home" true).cache.lookup
          "FooNode" = some "<p>Foo</p>" ∧
      ∃ content,
        (load_help (netBody "<p>home</p>") [("FooNode", "<p>Foo</p>")] "home" true).value =
          .str content ∧
        (load_help (netBody "<p>home</p>") [("FooNode", "<p>Foo</p>")] "home" true).cache.lookup
          "home" = some content :=
  ⟨(load_help_absolute_cache (netDown "offline") [("FooNode", "<p>Foo</p>")] "home").2.1
      (by decide),
   ((load_help_absolute_cache (netBody "<p>home</p>") [("FooNode", "<p>Foo</p>")] "home").2.2.1
      (by decide)).1 "FooNode" (by decide),
   (load_help_absolute_cache (netBody "<p>home</p>") [("FooNode", "<p>Foo</p>")] "home").2.2.2
      (by decide)⟩

/-- C3: when `n` is not in the cache and the retrieval for `n` is rejected
with `e`, `load_help(n, false)` resolves to a string that contains `n` and `e`,
the cache is exactly what it was, `n` is still absent from it, and the next
non-absolute call for `n` requests the URL of `n` again. -/
theorem load_help_transport_failure (net net₂ : Network) (cache : Cache) (n e : String)
    (hn : jsIn n cache = false) (hrej : net (JOV_HELP_URL ++ "/" ++ n) = .rejected e) :
    ∃ fragment,
      (load_help net cache n false).value = .str fragment ∧
      Contains fragment n ∧ Contains fragment e ∧
      (load_help net cache n false).cache = cache ∧
      jsIn n (load_help net cache n false).cache = false ∧
      (load_help net cache n false).requests = [JOV_HELP_URL ++ "/" ++ n] ∧
      (load_help net₂ (load_help net cache n false).cache n false).requests =
        [JOV_HELP_URL ++ "/" ++ n] := by
  have h := load_help_rejected net cache n e false (Or.inr hn) (by simpa [requestUrl] using hrej)
  refine ⟨catchFragment n e, ?_, ?_, ?_, ?_, ?_, ?_, ?_⟩
  · rw [h]
  · exact contains_mid "Failed to load documentation: " n ("\n\n" ++ e) |> fun c => by
      simpa [catchFragment, String.append_assoc] using c
  · exact contains_end ("Failed to load documentation: " ++ n ++ "\n\n") e
  · rw [h]
  · rw [h]; exact hn
  · rw [h]; simp [requestUrl]
  · rw [h]
    simpa [requestUrl] using load_help_miss_requests net₂ cache n false (Or.inr hn)

/-- Witness of C3: "FooNode" on an empty cache with the network down, then
up. -/
theorem load_help_transport_failure_witness :
    ∃ fragment,
      (load_help (netDown "TypeError: Failed to fetch") [] "FooNode" false).value =
        .str fragment ∧
      Contains fragment "FooNode" ∧ Contains fragment "TypeError: Failed to fetch" ∧
      (load_help (netDown "TypeError: Failed to fetch") [] "FooNode" false).cache = [] ∧
      jsIn "FooNode" (load_help (netDown "TypeError: Failed to fetch") [] "FooNode" false).cache =
        false ∧
      (load_help (netDown "TypeError: Failed to fetch") [] "FooNode" false).requests =
        [JOV_HELP_URL ++ "/" ++ "FooNode"] ∧
      (load_help (netBody "<p>Foo</p>")
          (load_help (netDown "TypeError: Failed to fetch") [] "FooNode" false).cache
          "FooNode" false).requests = [JOV_HELP_URL ++ "/" ++ "FooNode"] :=
  load_help_transport_failure (netDown "TypeError: Failed to fetch") (netBody "<p>Foo</p>") []
    "FooNode" "TypeError: Failed to fetch" (by decide) rfl

/-- C4: when `n` is not in the cache and the retrieval for `n` ends in a
response that is not `ok`, with status text `s` and URL `U`, then
`load_help(n, false)` resolves to the fragment of line 31, which contains `n`,
`s` and `U`; that fragment does not start with "unknown", and it is what the
cache holds under `n` afterwards, every other entry being unchanged; a later
non-absolute call for `n` returns it, requests nothing and leaves the cache
as it is. -/
theorem load_help_http_error_cached (net net₂ : Network) (cache : Cache) (n : String)
    (response : Response) (hn : jsIn n cache = false)
    (hnet : net (JOV_HELP_URL ++ "/" ++ n) = .resolved response)
    (hok : response.ok = false) :
    ∃ fragment,
      fragment = httpErrorFragment n response ∧
      (load_help net cache n false).value = .str fragment ∧
      Contains fragment n ∧ Contains fragment response.statusText ∧
      Contains fragment response.url ∧
      startsWith fragment "unknown" = false ∧ (∀ data, fragment ≠ unknownFragment data) ∧
      (load_help net cache n false).cache.lookup n = some fragment ∧
      (∀ m, m ≠ n → (load_help net cache n false).cache.lookup m = cache.lookup m) ∧
      (load_help net cache n false).requests = [JOV_HELP_URL ++ "/" ++ n] ∧
      load_help net₂ (load_help net cache n false).cache n false =
        { value := .str fragment, cache := (load_help net cache n false).cache,
          requests := [], consoleErrors := 0 } := by
  have hp := not_proto_of_not_jsIn cache n hn
  have hst : stored (httpErrorFragment n response) = httpErrorFragment n response := by
    simp [stored, startsWith_httpErrorFragment]
  have h := load_help_data net cache n (httpErrorFragment n response) false response 1
    (Or.inr hn) (by simpa [requestUrl] using hnet) (by simp [onResponse, hok])
  rw [onData_eq cache n _ (Or.inr hp), hst] at h
  have hl := lookup_jsSet_self cache n (httpErrorFragment n response) (Or.inr hp)
  refine ⟨httpErrorFragment n response, rfl, ?_, ?_, ?_, ?_, ?_, ?_, ?_, ?_, ?_, ?_⟩
  · rw [h]
  · have c := contains_mid "Failed to load documentation: " n
      ("<br><br>" ++ response.statusText ++ "<br><br>" ++ response.url)
    simpa [httpErrorFragment, String.append_assoc] using c
  · have c := contains_mid ("Failed to load documentation: " ++ n ++ "<br><br>")
      response.statusText ("<br><br>" ++ response.url)
    simpa [httpErrorFragment, String.append_assoc] using c
  · exact contains_end _ response.url
  · exact startsWith_httpErrorFragment n response
  · intro data hd
    have := congrArg (fun t : String => t.data.head?) hd
    simp [httpErrorFragment, unknownFragment, String.data_append] at this
  · rw [h]; exact hl
  · intro m hm
    rw [h]; exact lookup_jsSet_other cache n _ m hm
  · rw [h]; simp [requestUrl]
  · rw [h]
    simp only
    rw [load_help_hit net₂ _ n (jsIn_of_lookup _ n _ hl), jsGet_of_lookup _ n _ hl]

/-- Witness of C4: a 404 for "FooNode" on an empty cache. -/
theorem load_help_http_error_cached_witness :
    ∃ fragment,
      (load_help netNotFound [] "FooNode" false).value = .str fragment ∧
      Contains fragment "FooNode" ∧ Contains fragment "Not Found" ∧
      Contains fragment "http://host/api/jov_help/doc/FooNode" ∧
      (load_help netNotFound [] "FooNode" false).cache.lookup "FooNode" = some fragment ∧
      (load_help (netDown "offline") (load_help netNotFound [] "FooNode" false).cache
        "FooNode" false).requests = [] := by
  obtain ⟨fragment, _, hv, c1, c2, c3, _, _, hl, _, _, h2⟩ :=
    load_help_http_error_cached netNotFound (netDown "offline") [] "FooNode"
      { ok := false, statusText := "Not Found", url := "http://host/api/jov_help/doc/FooNode",
        text := .ok "" } (by decide) rfl rfl
  exact ⟨fragment, hv, c1, c2, c3, hl, by rw [h2]⟩

/-- C5: when `n` is not in the cache and the retrieval for `n` ends in an `ok`
response with body `b`: if `b` starts with "unknown", `load_help(n, false)`
resolves to the fragment of lines 38-43, which contains `<h3>b</h3>` and
"SELECT A NODE TO SEE HELP" and differs from `b`, and that fragment is what the
cache holds under `n`; if `b` does not start with "unknown", the call resolves
to `b` and the cache holds `b` under `n`. -/
theorem load_help_success_body (net : Network) (cache : Cache) (n b : String)
    (response : Response) (hn : jsIn n cache = false)
    (hnet : net (JOV_HELP_URL ++ "/" ++ n) = .resolved response)
    (hok : response.ok = true) (htext : response.text = .ok b) :
    (startsWith b "unknown" = true →
      ∃ fragment,
        (load_help net cache n false).value = .str fragment ∧
        Contains fragment ("<h3>" ++ b ++ "</h3>") ∧
        Contains fragment "SELECT A NODE TO SEE HELP" ∧
        fragment ≠ b ∧
        (load_help net cache n false).cache.lookup n = some fragment) ∧
    (startsWith b "unknown" = false →
      (load_help net cache n false).value = .str b ∧
      (load_help net cache n false).cache.lookup n = some b) := by
  have hp := not_proto_of_not_jsIn cache n hn
  have h := load_help_data net cache n b false response 0
    (Or.inr hn) (by simpa [requestUrl] using hnet) (by simp [onResponse, hok, htext])
  rw [onData_eq cache n _ (Or.inr hp)] at h
  have hl := lookup_jsSet_self cache n (stored b) (Or.inr hp)
  constructor
  · intro hs
    have hst : stored b = unknownFragment b := by simp [stored, hs]
    rw [hst] at h hl
    refine ⟨unknownFragment b, ?_, ?_, ?_, unknownFragment_ne b, ?_⟩
    · rw [h]
    · have c := contains_mid "\n                    <div align=\"center\">\n                        "
        ("<h3>" ++ b ++ "</h3>")
        "\n                        <h4>SELECT A NODE TO SEE HELP</h4>\n                    </div>\n                "
      have e : unknownFragment b =
          "\n                    <div align=\"center\">\n                        " ++
            ("<h3>" ++ b ++ "</h3>") ++
            "\n                        <h4>SELECT A NODE TO SEE HELP</h4>\n                    </div>\n                " := by
        apply String.ext
        simp [unknownFragment, String.data_append]
      rw [e]; exact c
    · have c := contains_mid
        ("\n                    <div align=\"center\">\n                        <h3>" ++ b ++
          "</h3>\n                        <h4>")
        "SELECT A NODE TO SEE HELP" "</h4>\n                    </div>\n                "
      have e : unknownFragment b =
          ("\n                    <div align=\"center\">\n                        <h3>" ++ b ++
            "</h3>\n                        <h4>") ++
            "SELECT A NODE TO SEE HELP" ++ "</h4>\n                    </div>\n                " := by
        apply String.ext
        simp [unknownFragment, String.data_append]
      rw [e]; exact c
    · rw [h]; exact hl
  · intro hs
    have hst : stored b = b := by simp [stored, hs]
    rw [hst] at h hl
    exact ⟨by rw [h], by rw [h]; exact hl⟩

/-- Witness of C5: the bodies "unknown: component X" and "<p>Foo</p>" for
"FooNode" on an empty cache. -/
theorem load_help_success_body_witness :
    (∃ fragment,
        (load_help (netBody "unknown: component X") [] "FooNode" false).value = .str fragment ∧
        Contains fragment ("<h3>" ++ "unknown: component X" ++ "</h3>") ∧
        Contains fragment "SELECT A NODE TO SEE HELP" ∧
        fragment ≠ "unknown: component X" ∧
        (load_help (netBody "unknown: component X") [] "FooNode" false).cache.lookup "FooNode" =
          some fragment) ∧
      ((load_help (netBody "<p>Foo</p>") [] "FooNode" false).value = .str "<p>Foo</p>" ∧
        (load_help (netBody "<p>Foo</p>") [] "FooNode" false).cache.lookup "FooNode" =
          some "<p>Foo</p>") :=
  ⟨(load_help_success_body (netBody "unknown: component X") [] "FooNode" "unknown: component X"
      { ok := true, statusText := "OK", url := JOV_HELP_URL ++ "/" ++ "FooNode",
        text := .ok "unknown: component X" } (by decide) rfl rfl rfl).1 (by decide),
   (load_help_success_body (netBody "<p>Foo</p>") [] "FooNode" "<p>Foo</p>"
      { ok := true, statusText := "OK", url := JOV_HELP_URL ++ "/" ++ "FooNode",
        text := .ok "<p>Foo</p>" } (by decide) rfl rfl rfl).2 (by decide)⟩

/-! ## The claims on the selection-change handler -/

theorem dispatched_cons (key : String) (node : Node) (rest : List (String × Node)) :
    dispatched (some ((key, node) :: rest)) =
      [Event.dispatch "jovi_helpRequested"
        { «class» :=
            match node.getNickname with
            | some v => if v.truthy then v else .str "unknown"
            | none => .str "unknown",
          name := node.type }] := by
  cases hnick : node.getNickname with
  | none => simp [dispatched, List.lookup, hnick, JSValue.truthy]
  | some v => simp [dispatched, List.lookup, hnick]

theorem dispatched_shape (s : Selection) :
    dispatched s = [] ∨ ∃ detail, dispatched s = [Event.dispatch "jovi_helpRequested" detail] := by
  match s with
  | none => exact Or.inl rfl
  | some [] => exact Or.inl rfl
  | some ((key, node) :: rest) => exact Or.inr ⟨_, dispatched_cons key node rest⟩

theorem signals_setup (o : Option Handler) (this : JSValue) (s : Selection) :
    signals (setup o this s) = dispatched s := by
  cases o <;> rcases dispatched_shape s with h | ⟨d, h⟩ <;> simp [signals, setup, h]

theorem calls_setup_some (h : Handler) (this : JSValue) (s : Selection) :
    calls (setup (some h) this s) = [Event.call this []] := by
  rcases dispatched_shape s with hd | ⟨d, hd⟩ <;> simp [calls, setup, hd]

theorem calls_setup_none (this : JSValue) (s : Selection) :
    calls (setup none this s) = [] := by
  rcases dispatched_shape s with hd | ⟨d, hd⟩ <;> simp [calls, setup, hd]

/-- C6: a call of the replacement handler built over a handler `h` invokes
`h` exactly once, as the first thing it does (every dispatch comes after it),
and returns the value that invocation returned, whatever the selection and
whether or not an event is dispatched; built over no handler it invokes
nothing and returns `undefined`. -/
theorem setup_invokes_original_once (h : Handler) (this : JSValue) (s : Selection) :
    calls (setup (some h) this s) = [Event.call this []] ∧
    (setup (some h) this s).trace = Event.call this [] :: signals (setup (some h) this s) ∧
    (setup (some h) this s).value = h this [] ∧
    calls (setup none this s) = [] ∧
    (setup none this s).value = .undefined := by
  refine ⟨calls_setup_some h this s, ?_, rfl, calls_setup_none this s, rfl⟩
  rw [signals_setup]
  rfl

/-- C7, counterexample: a node whose `getNickname()` returns the empty string
gets the class "unknown", which is not its nickname. -/
theorem setup_empty_nickname_is_unknown :
    signals (setup none (.obj "canvas")
        (some [("1", { getNickname := some (.str ""), type := "FooNode" })])) =
      [Event.dispatch "jovi_helpRequested" { «class» := .str "unknown", name := "FooNode" }] ∧
    JSValue.str "unknown" ≠ JSValue.str "" := by
  decide

/-- C7, amended: the replacement handler dispatches nothing when the selection
is absent or has no entry; otherwise it dispatches exactly one
'jovi_helpRequested' event, made from the first entry: `name` is the node's
type, `class` is what `getNickname()` returns when the node has the method and
the value is truthy, and "unknown" otherwise. A single node of type "FooNode"
without the method gives class "unknown" and name "FooNode". -/
theorem setup_signals (o : Option Handler) (this : JSValue) :
    signals (setup o this none) = [] ∧
    signals (setup o this (some [])) = [] ∧
    (∀ key node rest, signals (setup o this (some ((key, node) :: rest))) =
      [Event.dispatch "jovi_helpRequested"
        { «class» :=
            match node.getNickname with
            | some v => if v.truthy then v else .str "unknown"
            | none => .str "unknown",
          name := node.type }]) ∧
    (∀ key, signals (setup o this (some [(key, { getNickname := none, type := "FooNode" })])) =
      [Event.dispatch "jovi_helpRequested" { «class» := .str "unknown", name := "FooNode" }]) := by
  refine ⟨?_, ?_, ?_, ?_⟩
  · rw [signals_setup]; rfl
  · rw [signals_setup]; rfl
  · intro key node rest
    rw [signals_setup, dispatched_cons]
  · intro key
    rw [signals_setup, dispatched_cons]

/-- C10, the code at the failing input: for every handler, receiver and
selection, the call the replacement handler makes has the receiver but an
empty argument list, which is not the call the host makes; with "FooNode"
selected, `reportSelection` returns "nodes selected" to the host's call and
"nothing selected" through the replacement handler. -/
theorem setup_drops_selection_argument :
    (∀ (h : Handler) (this : JSValue) (s : Selection),
      calls (setup (some h) this s) = [Event.call this []] ∧
      Event.call this [] ≠ hostCall this s) ∧
    reportSelection (.obj "canvas")
        [some [("1", { getNickname := none, type := "FooNode" })]] = .str "nodes selected" ∧
    (setup (some reportSelection) (.obj "canvas")
        (some [("1", { getNickname := none, type := "FooNode" })])).value =
      .str "nothing selected" := by
  refine ⟨fun h this s => ⟨calls_setup_some h this s, ?_⟩, rfl, rfl⟩
  simp [hostCall]

/-! ## The claims on the panel and the initial cache -/

/-- C8: whatever the cache holds and whatever the network answers, `render`
stores the element in `PANEL`, makes exactly one request, to "./api/jov_help",
and assigns to the element's `innerHTML` the string the call
`load_help("home", true)` resolves to: the fragment of line 50 after a
rejection, the fragment of line 31 after a response that is not `ok`, and
the body, wrapped by lines 38-43 when it starts with "unknown", otherwise. -/
theorem render_fetches_home (net : Network) (st : State) (el : Element) :
    (render net st el).requests = ["./api/jov_help"] ∧
    (∃ content,
      (load_help net st.cache "home" true).value = .str content ∧
      (render net st el).state.PANEL = some { id := el.id, innerHTML := .str content }) ∧
    (∀ e, net "./api/jov_help" = .rejected e →
      (render net st el).state.PANEL =
        some { id := el.id, innerHTML := .str (catchFragment "home" e) }) ∧
    (∀ response, net "./api/jov_help" = .resolved response → response.ok = false →
      (render net st el).state.PANEL =
        some { id := el.id, innerHTML := .str (httpErrorFragment "home" response) }) ∧
    (∀ response b, net "./api/jov_help" = .resolved response → response.ok = true →
      response.text = .ok b →
      (render net st el).state.PANEL =
        some { id := el.id,
               innerHTML := .str (if startsWith b "unknown" then unknownFragment b else b) }) := by
  have hurl : requestUrl "home" true = "./api/jov_help" := rfl
  have hp : ("home" : String) ≠ "__proto__" := by decide
  refine ⟨?_, ?_, ?_, ?_, ?_⟩
  · simpa [render, hurl, JOV_HOME] using
      load_help_miss_requests net st.cache "home" true (Or.inl rfl)
  · cases hc : (net (requestUrl "home" true)).completes with
    | true =>
      obtain ⟨data, logged, h⟩ := load_help_completes net st.cache "home" true (Or.inl rfl) hc
      rw [onData_eq st.cache "home" data (Or.inr hp)] at h
      exact ⟨stored data, by rw [h], by simp [render, h]⟩
    | false =>
      obtain ⟨error, h⟩ := load_help_not_completes net st.cache "home" true (Or.inl rfl) hc
      exact ⟨catchFragment "home" error, by rw [h], by simp [render, h]⟩
  · intro e he
    have h := load_help_rejected net st.cache "home" e true (Or.inl rfl) (by rw [hurl]; exact he)
    simp [render, h]
  · intro response hnet hok
    have h := load_help_data net st.cache "home" (httpErrorFragment "home" response) true
      response 1 (Or.inl rfl) (by rw [hurl]; exact hnet) (by simp [onResponse, hok])
    rw [onData_eq st.cache "home" _ (Or.inr hp)] at h
    have hst : stored (httpErrorFragment "home" response) = httpErrorFragment "home" response := by
      simp [stored, startsWith_httpErrorFragment]
    simp [render, h, hst]
  · intro response b hnet hok htext
    have h := load_help_data net st.cache "home" b true response 0 (Or.inl rfl)
      (by rw [hurl]; exact hnet) (by simp [onResponse, hok, htext])
    rw [onData_eq st.cache "home" _ (Or.inr hp)] at h
    simp [render, h, stored]

/-- Witness of C8: mounting on a cache that already has "home", with the
network down, up with a 404, and up with a body. -/
theorem render_fetches_home_witness :
    (render (netDown "offline") { PANEL := none, cache := [("home", "<p>old</p>")] }
        { id := 7, innerHTML := .undefined }).state.PANEL =
      some { id := 7, innerHTML := .str (catchFragment "home" "offline") } ∧
    (render netNotFound { PANEL := none, cache := [("home", "<p>old</p>")] }
        { id := 7, innerHTML := .undefined }).state.PANEL =
      some { id := 7, innerHTML := .str (httpErrorFragment "home"
        { ok := false, statusText := "Not Found",
          url := "http://host/api/jov_help/doc/FooNode", text := .ok "" }) } ∧
    (render (netBody "<p>home</p>") { PANEL := none, cache := [("home", "<p>old</p>")] }
        { id := 7, innerHTML := .undefined }).state.PANEL =
      some { id := 7,
             innerHTML := .str (if startsWith "<p>home</p>" "unknown"
               then unknownFragment "<p>home</p>" else "<p>home</p>") } :=
  ⟨(render_fetches_home (netDown "offline") { PANEL := none, cache := [("home", "<p>old</p>")] }
      { id := 7, innerHTML := .undefined }).2.2.1 "offline" rfl,
   (render_fetches_home netNotFound { PANEL := none, cache := [("home", "<p>old</p>")] }
      { id := 7, innerHTML := .undefined }).2.2.2.1 _ rfl rfl,
   (render_fetches_home (netBody "<p>home</p>")
      { PANEL := none, cache := [("home", "<p>old</p>")] }
      { id := 7, innerHTML := .undefined }).2.2.2.2 _ "<p>home</p>" rfl rfl rfl⟩

/-- C9, the code at the failing input: on the initial cache the test
`"constructor" in CACHE_DOCUMENTATION` is true, and `load_help("constructor")`
returns the inherited function without any request, whatever the network;
the same holds for every property name of `Object.prototype`. For every other
name the test is false and the call requests "./api/jov_help/doc/" followed by
the name and resolves to a string. -/
theorem load_help_initial_cache_inherited :
    jsIn "constructor" CACHE_DOCUMENTATION = true ∧
    (∀ net : Network, load_help net CACHE_DOCUMENTATION "constructor" false =
      { value := .obj "Object.prototype.constructor", cache := [], requests := [],
        consoleErrors := 0 }) ∧
    (∀ (net : Network) (n : String), n ∈ objectPrototypeKeys →
      (load_help net CACHE_DOCUMENTATION n false).requests = [] ∧
      ∀ content, (load_help net CACHE_DOCUMENTATION n false).value ≠ .str content) ∧
    (∀ (net : Network) (n : String), n ∉ objectPrototypeKeys →
      jsIn n CACHE_DOCUMENTATION = false ∧
      (load_help net CACHE_DOCUMENTATION n false).requests = ["./api/jov_help/doc/" ++ n] ∧
      ∃ content, (load_help net CACHE_DOCUMENTATION n false).value = .str content) := by
  refine ⟨by decide, fun net => ?_, fun net n hn => ?_, fun net n hn => ?_⟩
  · rw [load_help_hit net _ _ (by decide)]
    rfl
  · have hin : jsIn n CACHE_DOCUMENTATION = true := by
      simp [jsIn, hn]
    rw [load_help_hit net _ _ hin]
    refine ⟨rfl, ?_⟩
    intro content
    simp only [jsGet, CACHE_DOCUMENTATION, List.lookup]
    split
    · simp
    · simp [hn]
  · have hin : jsIn n CACHE_DOCUMENTATION = false := by
      simp [jsIn, hasOwn, CACHE_DOCUMENTATION, hn]
    have hp := not_proto_of_not_jsIn _ n hin
    refine ⟨hin, ?_, ?_⟩
    · have := load_help_miss_requests net CACHE_DOCUMENTATION n false (Or.inr hin)
      rw [this]
      simp only [requestUrl, JOV_HELP_URL, Bool.not_false, if_true]
      congr 1
    · cases hc : (net (requestUrl n false)).completes with
      | true =>
        obtain ⟨data, logged, h⟩ :=
          load_help_completes net CACHE_DOCUMENTATION n false (Or.inr hin) hc
        rw [onData_eq _ n data (Or.inr hp)] at h
        exact ⟨stored data, by rw [h]⟩
      | false =>
        obtain ⟨error, h⟩ :=
          load_help_not_completes net CACHE_DOCUMENTATION n false (Or.inr hin) hc
        exact ⟨catchFragment n error, by rw [h]⟩

end JoviHelp
